import Mathlib

/-!
Verification development for the fish_audio_util repository.

The definitions below are a shallow embedding of the Python sources:
- src/core/audio_generator.py (class AudioGenerator)
- src/ui/main_window.py (class BatchProcessThread)

Bytes are modelled as lists of natural numbers, timestamps as naturals,
Python exceptions as Except values, and the loosely-typed remote model
records as structures of optional fields (getattr with a default becomes
Option.getD at each use site, mirroring the source line by line).
-/

set_option linter.unusedVariables false

namespace FishAudioUtil

/-- Payloads of binary audio data: each entry is one byte value. -/
abbrev Bytes := List Nat

/-- Whitespace characters removed by Python str.strip() with no argument
(restricted to the ASCII whitespace characters). -/
def isPySpace (c : Char) : Bool :=
  c == ' ' || c == '\t' || c == '\n' || c == '\r' || c == '\x0b' || c == '\x0c'

/-- Python str.strip(): drop leading and trailing whitespace. -/
def pyStrip (s : String) : String :=
  ⟨((s.data.dropWhile isPySpace).reverse.dropWhile isPySpace).reverse⟩

/-- Python truthiness of an optional string: None and the empty string are
falsy (audio_generator.py tests api_key with plain `not self.api_key`). -/
def strTruthy : Option String → Bool
  | none => false
  | some s => s != ""

/-- One remote model record as consumed through getattr probing
(audio_generator.py lines 279-307, 334-376, 415-457): every attribute is
optional and a missing attribute yields the getattr default at its use
site.  The author attribute is collapsed to the author's nickname: it is
some nick exactly when a truthy author object is present (lines 430-434);
an absent or falsy author is none. -/
structure Model where
  id : Option String := none
  type : Option String := none
  title : Option String := none
  description : Option String := none
  languages : Option (List String) := none
  visibility : Option String := none
  state : Option String := none
  like_count : Option Int := none
  author_nickname : Option String := none
deriving Repr, DecidableEq

/-- One voice dictionary as built by AudioGenerator.  Only the keys id and
name are present in every dictionary the class builds; the other keys model
the optional dictionary entries and are read back with x.get(key, default)
by the sort in get_available_voices (lines 103-107). -/
structure Voice where
  id : String
  name : String
  title : Option String := none
  description : Option String := none
  languages : Option (List String) := none
  type : Option String := none
  visibility : Option String := none
  state : Option String := none
  like_count : Option Int := none
  author : Option String := none
deriving Repr, DecidableEq

/-- Python `", ".join(languages) if languages else ""`. -/
def languageStr (langs : List String) : String :=
  if langs.isEmpty then "" else String.intercalate ", " langs

/-- Build one personal-model dictionary (audio_generator.py lines 279-307;
the fallback path at lines 352-376 builds the identical dictionary, since
its visibility variable is filtered to equal "private"). -/
def personalVoice (m : Model) : Voice :=
  let title := m.title.getD "未知音色"
  let ls := languageStr (m.languages.getD [])
  let display := if ls != "" then title ++ " (" ++ ls ++ ")" else title
  { id := m.id.getD "",
    name := display,
    title := some title,
    description := some (m.description.getD ""),
    languages := some (m.languages.getD []),
    type := m.type,
    visibility := some "private",
    state := some (m.state.getD "unknown") }

/-- Build one public-model dictionary (audio_generator.py lines 415-457). -/
def publicVoice (m : Model) : Voice :=
  let title := m.title.getD "未知音色"
  let ls := languageStr (m.languages.getD [])
  let authorInfo :=
    match m.author_nickname with
    | some nick => if nick != "" then " - " ++ nick else ""
    | none => ""
  let display := (if ls != "" then title ++ " (" ++ ls ++ ")" else title) ++ authorInfo
  { id := m.id.getD "",
    name := display,
    title := some title,
    description := some (m.description.getD ""),
    languages := some (m.languages.getD []),
    author := some (if authorInfo != "" then authorInfo.replace " - " "" else ""),
    type := m.type,
    visibility := m.visibility,
    like_count := some (m.like_count.getD 0),
    state := some (m.state.getD "unknown") }

/-- Sort key of get_user_models, line 381: x.get('state','') != 'trained'. -/
def notTrained (v : Voice) : Bool := v.state.getD "" != "trained"

/-- Python stable ascending sort on a Boolean key (False before True):
a may stay before b iff key a ≤ key b in the Bool order. -/
def stateLe (a b : Voice) : Bool := !notTrained a || notTrained b

/-- Python stable sort with key like_count and reverse=True keeps a before b
exactly when like b ≤ like a (ties keep input order). -/
def likeDesc (a b : Voice) : Bool :=
  decide (b.like_count.getD 0 ≤ a.like_count.getD 0)

/-- Composite sort key of get_available_voices, lines 103-107. -/
def voiceKey (v : Voice) : Bool × Bool × Int :=
  (v.visibility.getD "" != "private",
   v.state.getD "" != "trained",
   -(v.like_count.getD 0))

/-- Strict order on Bool with false < true, as Python compares booleans. -/
def boolLt (a b : Bool) : Bool := !a && b

/-- Lexicographic non-strict order on the composite key, matching Python's
tuple comparison. -/
def keyLe : Bool × Bool × Int → Bool × Bool × Int → Bool
  | (a1, a2, a3), (b1, b2, b3) =>
    boolLt a1 b1 || (a1 == b1 && (boolLt a2 b2 || (a2 == b2 && decide (a3 ≤ b3))))

/-- Ordering used by the stable sort at lines 103-107. -/
def voiceLe (a b : Voice) : Bool := keyLe (voiceKey a) (voiceKey b)

/-- State of one AudioGenerator object.  The Fish Audio SDK Session object
is abstracted to the Boolean client (is a client object present). -/
structure AudioGenerator where
  api_key : Option String
  client : Bool
  voices_cache : Option (List Voice) := none
  cache_timestamp : Nat := 0
deriving Repr, DecidableEq

/-- The environment one AudioGenerator call runs in: the module flag
FISH_AUDIO_AVAILABLE and the outcomes of the remote SDK calls.
listPersonal models client.list_models(self_only=True), listAll models
client.list_models(), and tts models collecting the chunk iterator of
client.tts(request) for given text and reference id. -/
structure Backend where
  fish_available : Bool
  listPersonal : Except String (List Model)
  listAll : Except String (List Model)
  tts : String → String → Except String (List Bytes)

/-- The guard `not FISH_AUDIO_AVAILABLE or not self.api_key or not
self.client` (lines 75, 142, 252), stated positively. -/
def online (b : Backend) (g : AudioGenerator) : Bool :=
  b.fish_available && strTruthy g.api_key && g.client

/-- AudioGenerator.__init__ plus init_client: the client is present exactly
when the SDK is importable, the effective key (argument or environment
variable) is truthy, and Session construction succeeds. -/
def AudioGenerator.init (fish_available : Bool) (api_key : Option String)
    (session_ok : Bool) : AudioGenerator :=
  { api_key := api_key,
    client := fish_available && strTruthy api_key && session_ok,
    voices_cache := none,
    cache_timestamp := 0 }

/-- AudioGenerator.get_user_models (lines 245-388).  The primary path lists
personal models with self_only=True and keeps the tts records; when that
call raises, the nested handler (lines 311-378) falls back to filtering the
full listing by visibility == 'private'; when the fallback call raises too,
the exception reaches the outer handler (lines 386-388) which returns [].
Finally the list is sorted, stable, by the key state != 'trained'. -/
def get_user_models (onl : Bool)
    (listPersonal listAll : Except String (List Model)) : List Voice :=
  if !onl then []
  else
    match listPersonal with
    | .ok ms =>
        ((ms.filter (fun m => m.type == some "tts")).map personalVoice).mergeSort stateLe
    | .error _ =>
        match listAll with
        | .ok ms =>
            ((ms.filter (fun m =>
                m.type == some "tts" && m.visibility == some "private")).map
              personalVoice).mergeSort stateLe
        | .error _ => []

/-- AudioGenerator.get_public_models (lines 390-468).  Calling list_models
on a missing client raises, so hasClient = false lands in the handler that
returns []; the same handler catches a failing list call.  Otherwise the
public tts records are decorated, sorted by like count descending (stable),
and truncated to limit entries. -/
def get_public_models (hasClient : Bool) (listAll : Except String (List Model))
    (limit : Nat) : List Voice :=
  if !hasClient then []
  else
    match listAll with
    | .error _ => []
    | .ok ms =>
        let pub := (ms.filter (fun m =>
          m.type == some "tts" && m.visibility == some "public")).map publicVoice
        let sorted := pub.mergeSort likeDesc
        if sorted.length > limit then sorted.take limit else sorted

/-- The five fixed example voices returned without a credential or SDK
(lines 77-83). -/
def exampleVoices : List Voice :=
  [ { id := "voice_1", name := "女声-温柔" },
    { id := "voice_2", name := "男声-磁性" },
    { id := "voice_3", name := "女声-活泼" },
    { id := "voice_4", name := "男声-沉稳" },
    { id := "voice_5", name := "儿童-可爱" } ]

/-- Outcome of one get_available_voices call: the returned value or raised
error, the updated object state, and whether any client.list_models network
call was made during the call. -/
structure FetchResult where
  result : Except Unit (List Voice)
  gen : AudioGenerator
  contactedBackend : Bool
deriving Repr

/-- The non-fresh path of AudioGenerator.get_available_voices (lines
75-122).  Note that the handler at lines 116-122 (return a truthy cache,
else re-raise) is unreachable from backend failures: get_user_models and
get_public_models each catch their own exceptions and return [], so the
try body never raises and every branch of this embedding produces .ok.
The Except result type keeps the error case so that the absence of a
failure is expressible. -/
def fetch_voices (b : Backend) (g : AudioGenerator) (now : Nat) : FetchResult :=
  if !(online b g) then
    { result := .ok exampleVoices, gen := g, contactedBackend := false }
  else
    let user := get_user_models (online b g) b.listPersonal b.listAll
    let pub := get_public_models g.client b.listAll 20
    let allVoices := (user ++ pub).mergeSort voiceLe
    { result := .ok allVoices,
      gen := { g with voices_cache := some allVoices, cache_timestamp := now },
      contactedBackend := true }

/-- AudioGenerator.get_available_voices (lines 62-122).  The freshness test
at lines 71-73 is `cache is not None and now - timestamp < 300`; in the
fresh branch the cache is some, so getD never supplies its default. -/
def get_available_voices (b : Backend) (g : AudioGenerator) (now : Nat) :
    FetchResult :=
  if g.voices_cache.isSome && decide (now - g.cache_timestamp < 300) then
    { result := .ok (g.voices_cache.getD []), gen := g, contactedBackend := false }
  else
    fetch_voices b g now

/-- AudioGenerator.clear_cache (lines 499-502). -/
def clear_cache (g : AudioGenerator) : AudioGenerator :=
  { g with voices_cache := none, cache_timestamp := 0 }

/-- Python exceptions raised by generate_audio: ValueError with a message,
or any exception propagated from the SDK call. -/
inductive PyError where
  | valueError (msg : String)
  | backendError (msg : String)
deriving Repr, DecidableEq

/-- Message of an exception as rendered by str(e) in the caller. -/
def pyErrMsg : PyError → String
  | .valueError m => m
  | .backendError m => m

/-- Outcome of one generate_audio call: the returned bytes or raised error,
the seconds spent in time.sleep, and whether the SDK tts call was made. -/
structure SynthResult where
  result : Except PyError Bytes
  sleptSeconds : Nat
  networkCalled : Bool
deriving Repr

/-- The 44 header bytes written by _generate_dummy_audio (lines 478-492). -/
def wav_header : Bytes :=
  [82, 73, 70, 70,
   0x24, 0x08, 0x00, 0x00,
   87, 65, 86, 69,
   102, 109, 116, 32,
   0x10, 0x00, 0x00, 0x00,
   0x01, 0x00,
   0x01, 0x00,
   0x44, 0xac, 0x00, 0x00,
   0x88, 0x58, 0x01, 0x00,
   0x02, 0x00,
   0x10, 0x00,
   100, 97, 116, 97,
   0x00, 0x08, 0x00, 0x00]

/-- AudioGenerator._generate_dummy_audio (lines 470-497): the header
followed by 2048 bytes of silence. -/
def generate_dummy_audio : Bytes := wav_header ++ List.replicate 2048 0

/-- AudioGenerator.generate_audio (lines 124-174). -/
def generate_audio (b : Backend) (g : AudioGenerator) (text voice_id : String) :
    SynthResult :=
  if pyStrip text == "" then
    { result := .error (.valueError "文本内容不能为空"),
      sleptSeconds := 0, networkCalled := false }
  else if voice_id == "" then
    { result := .error (.valueError "音色ID不能为空"),
      sleptSeconds := 0, networkCalled := false }
  else if !(online b g) then
    { result := .ok generate_dummy_audio, sleptSeconds := 1, networkCalled := false }
  else
    match b.tts text voice_id with
    | .error e =>
        { result := .error (.backendError e), sleptSeconds := 0, networkCalled := true }
    | .ok chunks =>
        let audio := chunks.flatten
        if audio.isEmpty then
          { result := .error (.valueError "生成的音频数据为空"),
            sleptSeconds := 0, networkCalled := true }
        else
          { result := .ok audio, sleptSeconds := 0, networkCalled := true }

/-- AudioGenerator.batch_generate (lines 176-206): sequential, one entry
per input text, None (here: none) recorded for a failed element. -/
def batch_generate (b : Backend) (g : AudioGenerator) (texts : List String)
    (voice_id : String) : List (Option Bytes) :=
  if texts.isEmpty then []
  else texts.map (fun t => (generate_audio b g t voice_id).result.toOption)

/-- One input file of a batch run, as the runner observes it
(main_window.py lines 102-136): its basename, the outcome of
file_processor.read_text_file, and the combined outcome of
file_processor.get_output_path plus save_audio, which on success yields the
basename of the output path used in the success message.  Both external
steps may raise; a raised exception is an .error carrying str(e). -/
structure FileEnv where
  name : String
  readText : Except String String
  writeStep : Bytes → Except String String

/-- Signals emitted by BatchProcessThread (main_window.py lines 77-80),
in emission order. -/
inductive Event where
  | log (msg : String)
  | progress (cur total : Nat)
  | fileProcessed (name : String) (success : Bool) (msg : String)
  | finished (success : Bool) (msg : String)
deriving Repr, DecidableEq

/-- The cancellation flag is set at most once by the Observer and only ever
goes from false to true; cancelAt = some k means the k-th read of the flag
(reads are numbered by loop index, with the read after the loop numbered
files.length) is the first to observe true; none means no read observes
true. -/
def isCancelled (cancelAt : Option Nat) (i : Nat) : Bool :=
  match cancelAt with
  | none => false
  | some k => decide (k ≤ i)

/-- Events of one iteration of the per-file try block (main_window.py lines
107-145) together with whether the file counted as a success.  Every
exception raised inside the block — reading, synthesis (including its
argument validation), output-path derivation or writing — is caught by the
except at line 138 and converted into a failure event; empty stripped
content short-circuits at line 113 before synthesis. -/
structure BlockResult where
  events : List Event
  success : Bool
deriving Repr, DecidableEq

/-- The body of the batch loop for file number i of total. -/
def processFile (b : Backend) (g : AudioGenerator) (voice_id : String)
    (fe : FileEnv) (i total : Nat) : BlockResult :=
  let prog := Event.progress i total
  match fe.readText with
  | .error e =>
      { events := [prog, .fileProcessed fe.name false ("处理失败: " ++ e)],
        success := false }
  | .ok content =>
      if pyStrip content == "" then
        { events := [prog, .fileProcessed fe.name false "文件内容为空"],
          success := false }
      else
        let working := Event.log ("正在处理: " ++ fe.name)
        match (generate_audio b g content voice_id).result with
        | .error e =>
            { events := [prog, working,
                .fileProcessed fe.name false ("处理失败: " ++ pyErrMsg e)],
              success := false }
        | .ok audio =>
            match fe.writeStep audio with
            | .error e =>
                { events := [prog, working,
                    .fileProcessed fe.name false ("处理失败: " ++ e)],
                  success := false }
            | .ok outName =>
                { events := [prog, working,
                    .fileProcessed fe.name true ("已保存到: " ++ outName)],
                  success := true }

/-- The for loop of BatchProcessThread.run (lines 102-145): events emitted
from loop index i onward, plus the success and failure counts accumulated
by the remaining iterations. -/
def runFiles (b : Backend) (g : AudioGenerator) (voice_id : String)
    (cancelAt : Option Nat) (total : Nat) :
    List FileEnv → Nat → List Event × Nat × Nat
  | [], _ => ([], 0, 0)
  | fe :: rest, i =>
    if isCancelled cancelAt i then
      ([.log "用户取消了批量处理"], 0, 0)
    else
      let blk := processFile b g voice_id fe i total
      let r := runFiles b g voice_id cancelAt total rest (i + 1)
      (blk.events ++ r.1,
       (if blk.success then 1 else 0) + r.2.1,
       (if blk.success then 0 else 1) + r.2.2)

/-- The opening log message of a run (line 100). -/
def startMsg (total : Nat) : String :=
  "开始批量处理 " ++ toString total ++ " 个文件"

/-- The terminal signal chosen at lines 151-159 from the flag read after
the loop and the two counters. -/
def finEvent (cancelAt : Option Nat) (total s f : Nat) : Event :=
  if isCancelled cancelAt total then .finished false "处理已取消"
  else if f == 0 then .finished true ("全部 " ++ toString s ++ " 个文件处理成功")
  else .finished (decide (0 < s))
    ("处理完成: 成功 " ++ toString s ++ " 个，失败 " ++ toString f ++ " 个")

/-- BatchProcessThread.run (main_window.py lines 93-163).  The final
progress signal at line 148 is emitted after the loop on every path,
cancelled or not; the outer try at line 95 never fires in this embedding
because every per-file exception is already caught inside the loop. -/
def BatchProcessThread.run (b : Backend) (g : AudioGenerator) (voice_id : String)
    (files : List FileEnv) (cancelAt : Option Nat) : List Event :=
  let total := files.length
  let r := runFiles b g voice_id cancelAt total files 0
  .log (startMsg total) ::
    r.1 ++ [.progress total total, finEvent cancelAt total r.2.1 r.2.2]

/-- Events of the blocks of a list of files starting at loop index i,
with no cancellation interleaved; used to state what a partial run up to a
cancellation point contains. -/
def blocksEvents (b : Backend) (g : AudioGenerator) (voice_id : String) :
    List FileEnv → Nat → Nat → List Event
  | [], _, _ => []
  | fe :: rest, i, total =>
      (processFile b g voice_id fe i total).events ++
        blocksEvents b g voice_id rest (i + 1) total

/-- Number of per-file result signals in an event list. -/
def countFileResults (evs : List Event) : Nat :=
  (evs.filter (fun e =>
    match e with
    | .fileProcessed _ _ _ => true
    | _ => false)).length

/-- The progress signals of an event list, in emission order. -/
def progressEvents (evs : List Event) : List (Nat × Nat) :=
  evs.filterMap (fun e =>
    match e with
    | .progress a b => some (a, b)
    | _ => none)

/-- The merged catalog built at line 100: personal models first, then the
public models, before the sort at lines 103-107. -/
def merged_catalog (b : Backend) (g : AudioGenerator) : List Voice :=
  get_user_models (online b g) b.listPersonal b.listAll ++
    get_public_models g.client b.listAll 20

/-- An environment with the SDK missing: every remote call is unreachable. -/
def demoBackend : Backend :=
  { fish_available := false,
    listPersonal := .error "offline",
    listAll := .error "offline",
    tts := fun _ _ => .error "offline" }

/-- A generator constructed with no credential. -/
def demoGen : AudioGenerator := AudioGenerator.init false none false

/-- An environment whose two catalog list calls both fail. -/
def failingBackend : Backend :=
  { fish_available := true,
    listPersonal := .error "network down",
    listAll := .error "network down",
    tts := fun _ _ => .error "network down" }

/-- The non-empty catalog cached by an earlier successful fetch. -/
def priorVoices : List Voice := [{ id := "old_1", name := "old voice" }]

/-- A credentialed generator holding priorVoices in a stale cache
(fetched at time 0, consulted at time 1000). -/
def staleGen : AudioGenerator :=
  { api_key := some "key", client := true,
    voices_cache := some priorVoices, cache_timestamp := 0 }

/-- An environment whose remote calls all succeed. -/
def okBackend : Backend :=
  { fish_available := true,
    listPersonal := .ok [],
    listAll := .ok [],
    tts := fun _ _ => .ok [[1, 2, 3]] }

/-- A credentialed generator with an empty cache. -/
def keyedGen : AudioGenerator := AudioGenerator.init true (some "k") true

/-- Example entry of the sort-determinism scenario: private, trained,
5 likes. -/
def exP5 : Voice :=
  { id := "p5", name := "p5", visibility := some "private",
    state := some "trained", like_count := some 5 }

/-- Example entry: public, trained, 100 likes. -/
def exPub100 : Voice :=
  { id := "q100", name := "q100", visibility := some "public",
    state := some "trained", like_count := some 100 }

/-- Example entry: private, untrained, 1 like. -/
def exP1 : Voice :=
  { id := "p1", name := "p1", visibility := some "private",
    state := some "other", like_count := some 1 }

/-- A batch input file whose content is whitespace only. -/
def wfile : FileEnv :=
  { name := "a.txt", readText := .ok "  ", writeStep := fun _ => .ok "a.wav" }

/-- A batch input file that processes successfully offline. -/
def cfile1 : FileEnv :=
  { name := "1.txt", readText := .ok "hello", writeStep := fun _ => .ok "1.wav" }

/-- A second successful batch input file. -/
def cfile2 : FileEnv :=
  { name := "2.txt", readText := .ok "world", writeStep := fun _ => .ok "2.wav" }

/-- C8: for every call to generate_audio, if the text with surrounding
whitespace trimmed is empty, or the voice id is empty, the call fails with
the ValueError that models InvalidArgument, and it does so with zero
sleep, no placeholder payload, and no backend invocation, for any backend
and any generator state — validation precedes all network and fallback
activity. -/
theorem claim_C8_validation (b : Backend) (g : AudioGenerator)
    (text voice_id : String) :
    (pyStrip text = "" →
      generate_audio b g text voice_id =
        { result := .error (.valueError "文本内容不能为空"),
          sleptSeconds := 0, networkCalled := false })
    ∧ (pyStrip text ≠ "" → voice_id = "" →
      generate_audio b g text voice_id =
        { result := .error (.valueError "音色ID不能为空"),
          sleptSeconds := 0, networkCalled := false }) := by
  constructor
  · intro h
    simp [generate_audio, h]
  · intro h1 h2
    simp [generate_audio, h1, h2]

/-- Witness for C8 at the inputs of the spec scenario: synthesize of an
empty text fails, and synthesize with an empty voice id fails, both before
any other activity. -/
theorem claim_C8_validation_witness :
    generate_audio demoBackend demoGen "" "v1" =
      { result := .error (.valueError "文本内容不能为空"),
        sleptSeconds := 0, networkCalled := false }
    ∧ generate_audio demoBackend demoGen "text" "" =
      { result := .error (.valueError "音色ID不能为空"),
        sleptSeconds := 0, networkCalled := false } :=
  ⟨(claim_C8_validation demoBackend demoGen "" "v1").1 rfl,
   (claim_C8_validation demoBackend demoGen "text" "").2 (by decide) rfl⟩

/-- Helper: batch_generate is the elementwise map of generate_audio. -/
theorem batch_generate_eq_map (b : Backend) (g : AudioGenerator)
    (texts : List String) (voice_id : String) :
    batch_generate b g texts voice_id =
      texts.map (fun t => (generate_audio b g t voice_id).result.toOption) := by
  cases texts <;> simp [batch_generate]

/-- C9: batch_generate returns one entry per input text, in order: the
entry at position i is exactly the outcome of generate_audio on text i
(none marking a failure), so each element succeeds or fails independently
and no failure aborts the remaining elements; the empty input yields the
empty result. -/
theorem claim_C9_batch_alignment (b : Backend) (g : AudioGenerator)
    (texts : List String) (voice_id : String) :
    batch_generate b g [] voice_id = []
    ∧ (batch_generate b g texts voice_id).length = texts.length
    ∧ ∀ i : Nat, (batch_generate b g texts voice_id)[i]? =
        (texts[i]?).map (fun t => (generate_audio b g t voice_id).result.toOption) := by
  refine ⟨rfl, ?_, ?_⟩
  · rw [batch_generate_eq_map]; simp
  · intro i
    rw [batch_generate_eq_map]
    simp

/-- Helper: the offline branch of generate_audio in one equation. -/
theorem generate_audio_offline (b : Backend) (g : AudioGenerator)
    (text voice_id : String) (hoff : online b g = false)
    (ht : pyStrip text ≠ "") (hv : voice_id ≠ "") :
    generate_audio b g text voice_id =
      { result := .ok generate_dummy_audio, sleptSeconds := 1,
        networkCalled := false } := by
  have c1 : (pyStrip text == "") = false := by simpa using ht
  have c2 : (voice_id == "") = false := by simpa using hv
  simp [generate_audio, c1, c2, hoff]

/-- Helper: the 44-byte header. -/
theorem wav_header_length : wav_header.length = 44 := rfl

/-- Helper: size of the placeholder payload. -/
theorem generate_dummy_audio_length : generate_dummy_audio.length = 44 + 2048 := by
  rw [generate_dummy_audio, List.length_append, List.length_replicate,
    wav_header_length]

/-- Helper: the placeholder payload is non-empty. -/
theorem generate_dummy_audio_ne_nil : generate_dummy_audio ≠ [] := by
  intro h
  have h2 := congrArg List.length h
  rw [generate_dummy_audio_length] at h2
  simp at h2

/-- C10: with no backend configured, the placeholder synthesis output is
independent of its inputs: any two valid (text, voice) pairs give
byte-for-byte identical results, namely the fixed 44-byte header followed
by 2048 zero bytes. -/
theorem claim_C10_placeholder_independence (b : Backend) (g : AudioGenerator)
    (t1 v1 t2 v2 : String) (hoff : online b g = false)
    (h1 : pyStrip t1 ≠ "") (h2 : v1 ≠ "") (h3 : pyStrip t2 ≠ "") (h4 : v2 ≠ "") :
    generate_audio b g t1 v1 = generate_audio b g t2 v2
    ∧ (generate_audio b g t1 v1).result = .ok (wav_header ++ List.replicate 2048 0)
    ∧ wav_header.length = 44 := by
  rw [generate_audio_offline b g t1 v1 hoff h1 h2,
    generate_audio_offline b g t2 v2 hoff h3 h4]
  exact ⟨rfl, rfl, rfl⟩

/-- Witness for C10: two different texts and voices, identical payloads. -/
theorem claim_C10_witness :
    generate_audio demoBackend demoGen "你好" "v1" =
      generate_audio demoBackend demoGen "world" "v2"
    ∧ (generate_audio demoBackend demoGen "你好" "v1").result =
        .ok (wav_header ++ List.replicate 2048 0)
    ∧ wav_header.length = 44 :=
  claim_C10_placeholder_independence demoBackend demoGen "你好" "v1" "world" "v2"
    (by decide) (by decide) (by decide) (by decide) (by decide)

/-- C7: with no API credential configured, get_available_voices returns the
fixed built-in list of exactly 5 placeholder entries without failing and
without contacting the backend, and generate_audio on any valid inputs
returns the fixed non-empty placeholder payload (44-byte header plus 2048
bytes of silence) after the one-second simulated delay, never invoking the
network. -/
theorem claim_C7_offline_mode (b : Backend) (key : Option String)
    (session_ok : Bool) (now : Nat) (g : AudioGenerator)
    (hkey : strTruthy key = false)
    (hg : g = AudioGenerator.init b.fish_available key session_ok) :
    ((get_available_voices b g now).result = .ok exampleVoices
      ∧ (get_available_voices b g now).contactedBackend = false
      ∧ exampleVoices.length = 5)
    ∧ (∀ text voice_id, pyStrip text ≠ "" → voice_id ≠ "" →
        generate_audio b g text voice_id =
          { result := .ok generate_dummy_audio, sleptSeconds := 1,
            networkCalled := false }
        ∧ generate_dummy_audio ≠ []
        ∧ generate_dummy_audio.length = 44 + 2048) := by
  have hcache : g.voices_cache = none := by
    rw [hg]
    rfl
  have honl : online b g = false := by
    rw [hg]
    simp [online, AudioGenerator.init, hkey]
  refine ⟨⟨?_, ?_, rfl⟩, ?_⟩
  · simp [get_available_voices, hcache, fetch_voices, honl]
  · simp [get_available_voices, hcache, fetch_voices, honl]
  · intro text voice_id ht hv
    exact ⟨generate_audio_offline b g text voice_id honl ht hv,
      generate_dummy_audio_ne_nil, generate_dummy_audio_length⟩

/-- Witness for C7 with a generator built with no key at time 0. -/
theorem claim_C7_witness :
    strTruthy none = false
    ∧ (get_available_voices demoBackend
        (AudioGenerator.init demoBackend.fish_available none false) 0).result =
        .ok exampleVoices
    ∧ generate_audio demoBackend
        (AudioGenerator.init demoBackend.fish_available none false) "hi" "v1" =
        { result := .ok generate_dummy_audio, sleptSeconds := 1,
          networkCalled := false } :=
  ⟨rfl,
   (claim_C7_offline_mode demoBackend none false 0 _ rfl rfl).1.1,
   ((claim_C7_offline_mode demoBackend none false 0 _ rfl rfl).2 "hi" "v1"
     (by decide) (by decide)).1⟩

/-- C2 counterexample: at time 1000 the generator staleGen holds the stale
non-empty cache priorVoices, and both backend list calls of failingBackend
fail.  The claim says fetchAll must then return the prior cached entries,
and must fail with CatalogUnavailable when no prior cache exists.  Instead
the code returns the empty merged list in both cases (each helper catches
its own exception and returns []), and it overwrites the cache with []. -/
theorem claim_C2_counterexample :
    (get_available_voices failingBackend staleGen 1000).result = .ok []
    ∧ (get_available_voices failingBackend staleGen 1000).result ≠ .ok priorVoices
    ∧ (get_available_voices failingBackend (clear_cache staleGen) 1000).result ≠
        .error ()
    ∧ (get_available_voices failingBackend staleGen 1000).gen.voices_cache = some [] := by
  have hu : get_user_models true
      failingBackend.listPersonal failingBackend.listAll = [] := by decide
  have hpub : get_public_models staleGen.client failingBackend.listAll 20 = [] := by
    decide
  have h : get_available_voices failingBackend staleGen 1000 =
      fetch_voices failingBackend staleGen 1000 := by
    have hst : (staleGen.voices_cache.isSome &&
        decide ((1000 : Nat) - staleGen.cache_timestamp < 300)) = false := by decide
    simp [get_available_voices, hst]
  have h2 : fetch_voices failingBackend staleGen 1000 =
      { result := .ok [],
        gen :=
          { api_key := staleGen.api_key, client := staleGen.client,
            voices_cache := some [], cache_timestamp := 1000 },
        contactedBackend := true } := by
    have honl : online failingBackend staleGen = true := by decide
    simp only [fetch_voices, honl, hu, hpub, Bool.not_true, List.nil_append,
      List.mergeSort_nil, List.append_nil, Bool.false_eq_true, if_false]
  have huc : get_user_models true
      failingBackend.listPersonal failingBackend.listAll = [] := by decide
  have hpubc : get_public_models (clear_cache staleGen).client
      failingBackend.listAll 20 = [] := by decide
  have h3 : get_available_voices failingBackend (clear_cache staleGen) 1000 =
      fetch_voices failingBackend (clear_cache staleGen) 1000 := by
    have hst : ((clear_cache staleGen).voices_cache.isSome &&
        decide ((1000 : Nat) - (clear_cache staleGen).cache_timestamp < 300)) = false := by
      decide
    simp [get_available_voices, hst]
  have h4 : fetch_voices failingBackend (clear_cache staleGen) 1000 =
      { result := .ok [],
        gen :=
          { api_key := (clear_cache staleGen).api_key,
            client := (clear_cache staleGen).client,
            voices_cache := some [], cache_timestamp := 1000 },
        contactedBackend := true } := by
    have honl : online failingBackend (clear_cache staleGen) = true := by decide
    simp only [fetch_voices, honl, huc, hpubc, Bool.not_true, List.nil_append,
      List.mergeSort_nil, List.append_nil, Bool.false_eq_true, if_false]
  rw [h, h2, h3, h4]
  refine ⟨rfl, ?_, ?_, rfl⟩
  · simp [priorVoices]
  · simp

/-- C2 amended: when both backend list calls fail, each helper catches its
own exception and returns [], so a credentialed, non-fresh fetchAll
succeeds with the empty merged list and overwrites the cache with it — it
neither returns the prior cache nor fails. -/
theorem claim_C2_amended_total_failure (b : Backend) (g : AudioGenerator)
    (now : Nat) (e1 e2 : String)
    (hp : b.listPersonal = .error e1) (ha : b.listAll = .error e2)
    (honl : online b g = true)
    (hstale : (g.voices_cache.isSome && decide (now - g.cache_timestamp < 300)) = false) :
    (get_available_voices b g now).result = .ok []
    ∧ (get_available_voices b g now).gen.voices_cache = some [] := by
  have hc : g.client = true := by
    have h' := honl
    simp only [online, Bool.and_eq_true] at h'
    exact h'.2
  have hu : get_user_models true b.listPersonal b.listAll = [] := by
    rw [hp, ha]
    simp [get_user_models]
  have hpub : get_public_models g.client b.listAll 20 = [] := by
    rw [hc, ha]
    simp [get_public_models]
  have h1 : get_available_voices b g now = fetch_voices b g now := by
    simp [get_available_voices, hstale]
  have h2 : fetch_voices b g now =
      { result := .ok [],
        gen :=
          { api_key := g.api_key, client := g.client,
            voices_cache := some [], cache_timestamp := now },
        contactedBackend := true } := by
    simp only [fetch_voices, honl, hu, hpub, Bool.not_true, List.nil_append,
      List.mergeSort_nil, List.append_nil, Bool.false_eq_true, if_false]
  rw [h1, h2]
  exact ⟨rfl, rfl⟩

/-- Witness for the amended C2 at the concrete failing environment. -/
theorem claim_C2_witness :
    (get_available_voices failingBackend staleGen 1000).result = .ok []
    ∧ (get_available_voices failingBackend staleGen 1000).gen.voices_cache =
        some [] :=
  claim_C2_amended_total_failure failingBackend staleGen 1000
    "network down" "network down" rfl rfl (by decide) (by decide)

/-- Helper: a credentialed call with no fresh cache contacts the backend. -/
theorem contacted_of_not_fresh (b : Backend) (g : AudioGenerator) (now : Nat)
    (honl : online b g = true)
    (h : (g.voices_cache.isSome && decide (now - g.cache_timestamp < 300)) = false) :
    (get_available_voices b g now).contactedBackend = true := by
  simp [get_available_voices, h, fetch_voices, honl]

/-- C6: with a credentialed generator and an empty cache, the first
fetchAll contacts the backend; a second call within the 300-second window
contacts nothing and returns the cached entries unchanged with unchanged
state; a call at or after 300 seconds past the recorded fetch time
contacts the backend again, as does a call right after clear_cache. -/
theorem claim_C6_cache_idempotence (b : Backend) (g : AudioGenerator)
    (now1 now2 : Nat) (honl : online b g = true)
    (hnc : g.voices_cache = none) (hwin : now2 - now1 < 300) :
    (get_available_voices b g now1).contactedBackend = true
    ∧ (get_available_voices b (get_available_voices b g now1).gen now2).contactedBackend
        = false
    ∧ (get_available_voices b (get_available_voices b g now1).gen now2).result =
        (get_available_voices b g now1).result
    ∧ (get_available_voices b (get_available_voices b g now1).gen now2).gen =
        (get_available_voices b g now1).gen
    ∧ (∀ now3, 300 ≤ now3 - (get_available_voices b g now1).gen.cache_timestamp →
        (get_available_voices b (get_available_voices b g now1).gen now3).contactedBackend
          = true)
    ∧ (∀ now3,
        (get_available_voices b (clear_cache (get_available_voices b g now1).gen) now3).contactedBackend
          = true) := by
  have h1 : get_available_voices b g now1 = fetch_voices b g now1 := by
    simp [get_available_voices, hnc]
  have h2 : fetch_voices b g now1 =
      { result := .ok ((merged_catalog b g).mergeSort voiceLe),
        gen :=
          { api_key := g.api_key, client := g.client,
            voices_cache := some ((merged_catalog b g).mergeSort voiceLe),
            cache_timestamp := now1 },
        contactedBackend := true } := by
    simp only [fetch_voices, honl, merged_catalog, Bool.not_true,
      Bool.false_eq_true, if_false]
  have honl2 : ∀ g2 : AudioGenerator, g2.api_key = g.api_key → g2.client = g.client →
      online b g2 = true := by
    intro g2 hk hc
    rw [online, hk, hc, ← online, honl]
  rw [h1, h2]
  refine ⟨rfl, ?_, ?_, ?_, ?_, ?_⟩
  · simp [get_available_voices, hwin]
  · simp [get_available_voices, hwin]
  · simp [get_available_voices, hwin]
  · intro now3 h300
    have h300' : 300 ≤ now3 - now1 := by simpa using h300
    refine contacted_of_not_fresh b _ now3 (honl2 _ rfl rfl) ?_
    simp only [Option.isSome_some, Bool.true_and, decide_eq_false_iff_not]
    omega
  · intro now3
    exact contacted_of_not_fresh b _ now3 (honl2 _ rfl rfl) rfl

/-- Witness for C6: first fetch at time 0, second at time 100, both within
the window; refetch at time 400 and after an explicit cache clear. -/
theorem claim_C6_witness :
    online okBackend keyedGen = true
    ∧ (get_available_voices okBackend keyedGen 0).contactedBackend = true
    ∧ (get_available_voices okBackend
        (get_available_voices okBackend keyedGen 0).gen 100).contactedBackend = false
    ∧ (get_available_voices okBackend
        (get_available_voices okBackend keyedGen 0).gen 100).result =
        (get_available_voices okBackend keyedGen 0).result :=
  have h := claim_C6_cache_idempotence okBackend keyedGen 0 100
    (by decide) rfl (by decide)
  ⟨by decide, h.1, h.2.1, h.2.2.1⟩

/-- Helper: the composite key order is reflexive. -/
theorem keyLe_refl (x : Bool × Bool × Int) : keyLe x x = true := by
  obtain ⟨a1, a2, a3⟩ := x
  simp [keyLe, boolLt]

/-- Helper: the composite key order is total. -/
theorem keyLe_total (x y : Bool × Bool × Int) : (keyLe x y || keyLe y x) = true := by
  obtain ⟨a1, a2, a3⟩ := x
  obtain ⟨b1, b2, b3⟩ := y
  cases a1 <;> cases b1 <;> cases a2 <;> cases b2 <;>
    simp [keyLe, boolLt] <;> omega

/-- Helper: the composite key order is transitive. -/
theorem keyLe_trans (x y z : Bool × Bool × Int) (h1 : keyLe x y = true)
    (h2 : keyLe y z = true) : keyLe x z = true := by
  obtain ⟨a1, a2, a3⟩ := x
  obtain ⟨b1, b2, b3⟩ := y
  obtain ⟨c1, c2, c3⟩ := z
  cases a1 <;> cases b1 <;> cases c1 <;> cases a2 <;> cases b2 <;> cases c2 <;>
    simp_all [keyLe, boolLt] <;> omega

/-- Helper: the voice order is total. -/
theorem voiceLe_total (a b : Voice) : (voiceLe a b || voiceLe b a) = true :=
  keyLe_total (voiceKey a) (voiceKey b)

/-- Helper: the voice order is transitive. -/
theorem voiceLe_trans (a b c : Voice) (h1 : voiceLe a b = true)
    (h2 : voiceLe b c = true) : voiceLe a c = true :=
  keyLe_trans _ _ _ h1 h2

/-- Helper: entries with equal keys are mutually ordered. -/
theorem voiceLe_of_key_eq (a b : Voice) (h : voiceKey a = voiceKey b) :
    voiceLe a b = true := by
  rw [voiceLe, h]
  exact keyLe_refl _

/-- Helper: a filter keeping one key value is pairwise ordered. -/
theorem pairwise_voiceLe_filter (k : Bool × Bool × Int) :
    ∀ l : List Voice,
      List.Pairwise (fun a b => voiceLe a b = true)
        (l.filter (fun v => voiceKey v == k))
  | [] => by simp
  | a :: l => by
    by_cases h : voiceKey a = k
    · rw [List.filter_cons_of_pos (by simpa using h)]
      refine List.Pairwise.cons ?_ (pairwise_voiceLe_filter k l)
      intro b hb
      have hbk : voiceKey b = k := by
        simpa using (List.mem_filter.mp hb).2
      exact voiceLe_of_key_eq a b (by rw [h, hbk])
    · rw [List.filter_cons_of_neg (by simpa using h)]
      exact pairwise_voiceLe_filter k l

/-- Helper: stability of the catalog sort, stated as preservation of the
subsequence of entries sharing any one key value. -/
theorem mergeSort_voiceLe_filter (l : List Voice) (k : Bool × Bool × Int) :
    (l.mergeSort voiceLe).filter (fun v => voiceKey v == k) =
      l.filter (fun v => voiceKey v == k) := by
  have hsub : (l.filter (fun v => voiceKey v == k)).Sublist (l.mergeSort voiceLe) :=
    List.sublist_mergeSort voiceLe_trans voiceLe_total
      (pairwise_voiceLe_filter k l) (List.filter_sublist l)
  have hsub2 := List.Sublist.filter (fun v => voiceKey v == k) hsub
  rw [List.filter_filter] at hsub2
  simp only [Bool.and_self] at hsub2
  have hlen : ((l.mergeSort voiceLe).filter (fun v => voiceKey v == k)).length =
      (l.filter (fun v => voiceKey v == k)).length :=
    ((List.mergeSort_perm l voiceLe).filter _).length_eq
  exact (hsub2.eq_of_length hlen.symm).symm

/-- Helper: two strings agreeing on equality with c have equal bne flags. -/
theorem bne_congr_of_iff (c : String) {s t : String}
    (hiff : (s = c) ↔ (t = c)) : (s != c) = (t != c) := by
  by_cases hs : s = c
  · rw [hs, hiff.mp hs]
  · have ht : ¬ t = c := fun hh => hs (hiff.mpr hh)
    have hsb : (s != c) = true := bne_iff_ne.mpr hs
    have htb : (t != c) = true := bne_iff_ne.mpr ht
    rw [hsb, htb]

/-- Helper: the sort order never places a public entry before a private
one. -/
theorem voiceLe_imp_priv (x y : Voice) (h : voiceLe x y = true)
    (hy : y.visibility.getD "" = "private") :
    x.visibility.getD "" = "private" := by
  by_contra hx
  simp only [voiceLe, voiceKey] at h
  rw [hy] at h
  have hxb : (x.visibility.getD "" != "private") = true := by simpa using hx
  rw [hxb] at h
  simp [keyLe, boolLt] at h

/-- Helper: within one visibility class, trained entries come first. -/
theorem voiceLe_imp_trained (x y : Voice) (h : voiceLe x y = true)
    (hvis : (x.visibility.getD "" = "private") ↔ (y.visibility.getD "" = "private"))
    (hy : y.state.getD "" = "trained") : x.state.getD "" = "trained" := by
  by_contra hx
  simp only [voiceLe, voiceKey] at h
  rw [bne_congr_of_iff "private" hvis, hy] at h
  have hxb : (x.state.getD "" != "trained") = true := by simpa using hx
  rw [hxb] at h
  simp [keyLe, boolLt] at h

/-- Helper: within one visibility and training class, higher like count
comes first. -/
theorem voiceLe_imp_like (x y : Voice) (h : voiceLe x y = true)
    (hvis : (x.visibility.getD "" = "private") ↔ (y.visibility.getD "" = "private"))
    (hst : (x.state.getD "" = "trained") ↔ (y.state.getD "" = "trained")) :
    y.like_count.getD 0 ≤ x.like_count.getD 0 := by
  simp only [voiceLe, voiceKey] at h
  rw [bne_congr_of_iff "private" hvis, bne_congr_of_iff "trained" hst] at h
  simp [keyLe, boolLt] at h
  omega

/-- C5: a credentialed, non-fresh get_available_voices returns exactly the
stable merge sort, by the composite ascending key, of the personal-first
concatenation of personal and public entries; the result is pairwise
ordered by that key; entries sharing a key value keep their merge order
(stability); all private entries precede all public ones; within one
visibility class trained entries precede others; within one visibility and
training class higher like count comes first; and the three-entry spec
scenario sorts as stated. -/
theorem claim_C5_catalog_order (b : Backend) (g : AudioGenerator) (now : Nat)
    (honl : online b g = true)
    (hstale : (g.voices_cache.isSome && decide (now - g.cache_timestamp < 300)) = false) :
    (get_available_voices b g now).result =
      .ok ((merged_catalog b g).mergeSort voiceLe)
    ∧ List.Pairwise (fun x y => voiceLe x y = true)
        ((merged_catalog b g).mergeSort voiceLe)
    ∧ (∀ k, ((merged_catalog b g).mergeSort voiceLe).filter (fun v => voiceKey v == k) =
        (merged_catalog b g).filter (fun v => voiceKey v == k))
    ∧ List.Pairwise (fun x y => y.visibility.getD "" = "private" →
        x.visibility.getD "" = "private") ((merged_catalog b g).mergeSort voiceLe)
    ∧ List.Pairwise (fun x y =>
        ((x.visibility.getD "" = "private") ↔ (y.visibility.getD "" = "private")) →
        y.state.getD "" = "trained" → x.state.getD "" = "trained")
        ((merged_catalog b g).mergeSort voiceLe)
    ∧ List.Pairwise (fun x y =>
        ((x.visibility.getD "" = "private") ↔ (y.visibility.getD "" = "private")) →
        ((x.state.getD "" = "trained") ↔ (y.state.getD "" = "trained")) →
        y.like_count.getD 0 ≤ x.like_count.getD 0)
        ((merged_catalog b g).mergeSort voiceLe)
    ∧ [exP5, exPub100, exP1].mergeSort voiceLe = [exP5, exP1, exPub100] := by
  have hsorted := List.sorted_mergeSort voiceLe_trans voiceLe_total (merged_catalog b g)
  have hres : (get_available_voices b g now).result =
      .ok ((merged_catalog b g).mergeSort voiceLe) := by
    have h1 : get_available_voices b g now = fetch_voices b g now := by
      simp [get_available_voices, hstale]
    rw [h1]
    simp only [fetch_voices, honl, Bool.not_true, Bool.false_eq_true, if_false,
      merged_catalog]
  refine ⟨hres, hsorted, fun k => mergeSort_voiceLe_filter _ k, ?_, ?_, ?_, ?_⟩
  · exact hsorted.imp (fun h hy => voiceLe_imp_priv _ _ h hy)
  · exact hsorted.imp (fun h hvis hy => voiceLe_imp_trained _ _ h hvis hy)
  · exact hsorted.imp (fun h hvis hst => voiceLe_imp_like _ _ h hvis hst)
  · simp [List.mergeSort, List.splitInTwo, List.splitAt, List.splitAt.go,
      List.merge, exP5, exPub100, exP1, voiceLe, voiceKey, keyLe, boolLt]

/-- Witness for C5 at the concrete succeeding environment, time 0. -/
theorem claim_C5_witness :
    (get_available_voices okBackend keyedGen 0).result =
      .ok ((merged_catalog okBackend keyedGen).mergeSort voiceLe)
    ∧ [exP5, exPub100, exP1].mergeSort voiceLe = [exP5, exP1, exPub100] :=
  have h := claim_C5_catalog_order okBackend keyedGen 0 (by decide) (by decide)
  ⟨h.1, h.2.2.2.2.2.2⟩

/-- Helper: the loop body always takes one of exactly three shapes, each
ending in a single per-file result signal. -/
theorem processFile_cases (b : Backend) (g : AudioGenerator) (voice_id : String)
    (fe : FileEnv) (i total : Nat) :
    (∃ msg, processFile b g voice_id fe i total =
      { events := [.progress i total, .fileProcessed fe.name false msg],
        success := false })
    ∨ (∃ msg, processFile b g voice_id fe i total =
      { events := [.progress i total, .log ("正在处理: " ++ fe.name),
          .fileProcessed fe.name false msg], success := false })
    ∨ (∃ msg, processFile b g voice_id fe i total =
      { events := [.progress i total, .log ("正在处理: " ++ fe.name),
          .fileProcessed fe.name true msg], success := true }) := by
  rcases hr : fe.readText with e | content
  · exact .inl ⟨"处理失败: " ++ e, by simp [processFile, hr]⟩
  · by_cases hc : pyStrip content == ""
    · exact .inl ⟨"文件内容为空", by simp [processFile, hr, hc]⟩
    · rcases hg2 : (generate_audio b g content voice_id).result with e | audio
      · exact .inr (.inl ⟨"处理失败: " ++ pyErrMsg e,
          by simp [processFile, hr, hc, hg2]⟩)
      · rcases hw : fe.writeStep audio with e | o
        · exact .inr (.inl ⟨"处理失败: " ++ e,
            by simp [processFile, hr, hc, hg2, hw]⟩)
        · exact .inr (.inr ⟨"已保存到: " ++ o,
            by simp [processFile, hr, hc, hg2, hw]⟩)

/-- Helper: the loop body emits exactly one per-file result signal. -/
theorem processFile_count (b : Backend) (g : AudioGenerator) (voice_id : String)
    (fe : FileEnv) (i total : Nat) :
    countFileResults (processFile b g voice_id fe i total).events = 1 := by
  rcases processFile_cases b g voice_id fe i total with ⟨m, h⟩ | ⟨m, h⟩ | ⟨m, h⟩ <;>
    rw [h] <;> rfl

/-- Helper: the progress signal opens the loop body, before any work. -/
theorem processFile_head (b : Backend) (g : AudioGenerator) (voice_id : String)
    (fe : FileEnv) (i total : Nat) :
    (processFile b g voice_id fe i total).events.head? =
      some (.progress i total) := by
  rcases processFile_cases b g voice_id fe i total with ⟨m, h⟩ | ⟨m, h⟩ | ⟨m, h⟩ <;>
    rw [h] <;> rfl

/-- Helper: the loop body emits exactly one progress signal, (i, total). -/
theorem processFile_progress (b : Backend) (g : AudioGenerator) (voice_id : String)
    (fe : FileEnv) (i total : Nat) :
    progressEvents (processFile b g voice_id fe i total).events = [(i, total)] := by
  rcases processFile_cases b g voice_id fe i total with ⟨m, h⟩ | ⟨m, h⟩ | ⟨m, h⟩ <;>
    rw [h] <;> rfl

/-- Helper: the loop body closes with the per-file result signal. -/
theorem processFile_getLast (b : Backend) (g : AudioGenerator) (voice_id : String)
    (fe : FileEnv) (i total : Nat) :
    ∃ ok msg, (processFile b g voice_id fe i total).events.getLast? =
      some (.fileProcessed fe.name ok msg) := by
  rcases processFile_cases b g voice_id fe i total with ⟨m, h⟩ | ⟨m, h⟩ | ⟨m, h⟩
  · exact ⟨false, m, by rw [h]; rfl⟩
  · exact ⟨false, m, by rw [h]; rfl⟩
  · exact ⟨true, m, by rw [h]; rfl⟩

/-- Helper: a failed loop body closes with a failure signal. -/
theorem processFile_failure_last (b : Backend) (g : AudioGenerator)
    (voice_id : String) (fe : FileEnv) (i total : Nat)
    (hf : (processFile b g voice_id fe i total).success = false) :
    ∃ msg, (processFile b g voice_id fe i total).events.getLast? =
      some (.fileProcessed fe.name false msg) := by
  rcases processFile_cases b g voice_id fe i total with ⟨m, h⟩ | ⟨m, h⟩ | ⟨m, h⟩
  · exact ⟨m, by rw [h]; rfl⟩
  · exact ⟨m, by rw [h]; rfl⟩
  · rw [h] at hf
    simp at hf

/-- Helper: the threshold cancellation flag is monotone in the read index. -/
theorem isCancelled_le_false (c : Option Nat) (i j : Nat) (hij : i ≤ j)
    (h : isCancelled c j = false) : isCancelled c i = false := by
  cases c with
  | none => rfl
  | some k =>
    simp only [isCancelled, decide_eq_false_iff_not] at *
    omega

/-- Helper: one loop iteration that observes no cancellation. -/
theorem runFiles_cons_of_not_cancelled (b : Backend) (g : AudioGenerator)
    (voice_id : String) (c : Option Nat) (total : Nat) (fe : FileEnv)
    (rest : List FileEnv) (i : Nat) (h : isCancelled c i = false) :
    runFiles b g voice_id c total (fe :: rest) i =
      ((processFile b g voice_id fe i total).events ++
        (runFiles b g voice_id c total rest (i + 1)).1,
       (if (processFile b g voice_id fe i total).success then 1 else 0) +
         (runFiles b g voice_id c total rest (i + 1)).2.1,
       (if (processFile b g voice_id fe i total).success then 0 else 1) +
         (runFiles b g voice_id c total rest (i + 1)).2.2) := by
  simp [runFiles, h]

/-- Helper: one loop iteration that observes cancellation. -/
theorem runFiles_cons_of_cancelled (b : Backend) (g : AudioGenerator)
    (voice_id : String) (c : Option Nat) (total : Nat) (fe : FileEnv)
    (rest : List FileEnv) (i : Nat) (h : isCancelled c i = true) :
    runFiles b g voice_id c total (fe :: rest) i =
      ([.log "用户取消了批量处理"], 0, 0) := by
  simp [runFiles, h]

/-- Helper: progressEvents distributes over append. -/
theorem progressEvents_append (a c : List Event) :
    progressEvents (a ++ c) = progressEvents a ++ progressEvents c := by
  simp [progressEvents]

/-- Helper: an uncancelled loop emits one increasing progress signal per
file, starting at the loop index. -/
theorem runFiles_progress (b : Backend) (g : AudioGenerator) (voice_id : String)
    (c : Option Nat) (total : Nat) :
    ∀ (files : List FileEnv) (i : Nat),
      (∀ j, j < i + files.length → isCancelled c j = false) →
      progressEvents (runFiles b g voice_id c total files i).1 =
        (List.range files.length).map (fun j => (i + j, total))
  | [], i, h => by simp [runFiles, progressEvents]
  | fe :: rest, i, h => by
    have h0 : isCancelled c i = false :=
      h i (by simp only [List.length_cons]; omega)
    rw [runFiles_cons_of_not_cancelled b g voice_id c total fe rest i h0]
    rw [progressEvents_append, processFile_progress,
      runFiles_progress b g voice_id c total rest (i + 1)
        (fun j hj => h j (by simp only [List.length_cons]; omega))]
    rw [List.length_cons, List.range_succ_eq_map, List.map_cons, List.map_map]
    simp only [Nat.add_zero, List.singleton_append]
    congr 1
    apply List.map_congr_left
    intro j hj
    simp [Function.comp, Prod.ext_iff]
    omega

/-- Helper: the terminal signal is always a finished signal. -/
theorem finEvent_shape (c : Option Nat) (total s f : Nat) :
    ∃ ok msg, finEvent c total s f = .finished ok msg := by
  unfold finEvent
  split
  · exact ⟨_, _, rfl⟩
  · split
    · exact ⟨_, _, rfl⟩
    · exact ⟨_, _, rfl⟩

/-- Helper: a cancelled run terminates with the fixed cancelled signal. -/
theorem finEvent_cancelled (c : Option Nat) (total s f : Nat)
    (h : isCancelled c total = true) :
    finEvent c total s f = .finished false "处理已取消" := by
  simp [finEvent, h]

/-- Helper: a loop cancelled at threshold m runs the first m files in full
and stops at the m-th boundary with the cancel log. -/
theorem runFiles_cancel_at (b : Backend) (g : AudioGenerator) (voice_id : String)
    (total m : Nat) :
    ∀ (pre post : List FileEnv) (i : Nat), i + pre.length = m → post ≠ [] →
      (runFiles b g voice_id (some m) total (pre ++ post) i).1 =
        blocksEvents b g voice_id pre i total ++ [.log "用户取消了批量处理"]
  | [], post, i, hi, hp => by
    rcases post with _ | ⟨fe, rest⟩
    · exact absurd rfl hp
    · have hcan : isCancelled (some m) i = true := by
        simp only [isCancelled, decide_eq_true_eq]
        simp at hi
        omega
      rw [List.nil_append,
        runFiles_cons_of_cancelled b g voice_id (some m) total fe rest i hcan]
      simp [blocksEvents]
  | fe :: pre', post, i, hi, hp => by
    have h0 : isCancelled (some m) i = false := by
      simp only [isCancelled, decide_eq_false_iff_not]
      simp only [List.length_cons] at hi
      omega
    rw [List.cons_append,
      runFiles_cons_of_not_cancelled b g voice_id (some m) total fe (pre' ++ post) i h0]
    show (processFile b g voice_id fe i total).events ++
        (runFiles b g voice_id (some m) total (pre' ++ post) (i + 1)).1 = _
    rw [runFiles_cancel_at b g voice_id total m pre' post (i + 1)
      (by simp only [List.length_cons] at hi; omega) hp]
    simp [blocksEvents, List.append_assoc]

/-- Helper: countFileResults distributes over append. -/
theorem countFileResults_append (a c : List Event) :
    countFileResults (a ++ c) = countFileResults a + countFileResults c := by
  simp [countFileResults]

/-- Helper: a run of blocks emits one result signal per file. -/
theorem countFileResults_blocks (b : Backend) (g : AudioGenerator)
    (voice_id : String) :
    ∀ (files : List FileEnv) (i total : Nat),
      countFileResults (blocksEvents b g voice_id files i total) = files.length
  | [], i, total => rfl
  | fe :: rest, i, total => by
    show countFileResults ((processFile b g voice_id fe i total).events ++
      blocksEvents b g voice_id rest (i + 1) total) = rest.length + 1
    rw [countFileResults_append, processFile_count,
      countFileResults_blocks b g voice_id rest (i + 1) total]
    omega

/-- C1: for every file the loop reaches, the iteration is isolated: its
events are the loop-body block followed by the events of the remaining
files, so no per-file outcome aborts the batch; the block emits exactly one
per-file result signal, which closes the block; a failed block closes with
a failure signal carrying a reason string; and whitespace-only content
yields the fixed EmptyContent failure block — a constant independent of
the backend, so synthesis is never invoked for that file. -/
theorem claim_C1_failure_isolation (b : Backend) (g : AudioGenerator)
    (voice_id : String) (c : Option Nat) (total i : Nat) (fe : FileEnv)
    (rest : List FileEnv) (hnc : isCancelled c i = false) :
    (runFiles b g voice_id c total (fe :: rest) i).1 =
      (processFile b g voice_id fe i total).events ++
        (runFiles b g voice_id c total rest (i + 1)).1
    ∧ countFileResults (processFile b g voice_id fe i total).events = 1
    ∧ (∃ ok msg, (processFile b g voice_id fe i total).events.getLast? =
        some (.fileProcessed fe.name ok msg))
    ∧ ((processFile b g voice_id fe i total).success = false →
        ∃ msg, (processFile b g voice_id fe i total).events.getLast? =
          some (.fileProcessed fe.name false msg))
    ∧ (∀ content, fe.readText = .ok content → pyStrip content = "" →
        processFile b g voice_id fe i total =
          { events := [.progress i total, .fileProcessed fe.name false "文件内容为空"],
            success := false }) := by
  refine ⟨?_, processFile_count b g voice_id fe i total,
    processFile_getLast b g voice_id fe i total,
    fun hf => processFile_failure_last b g voice_id fe i total hf, ?_⟩
  · rw [runFiles_cons_of_not_cancelled b g voice_id c total fe rest i hnc]
  · intro content h1 h2
    simp [processFile, h1, h2]

/-- Witness for C1: a whitespace-only file at loop index 0 of a one-file
batch is recorded as the fixed EmptyContent failure. -/
theorem claim_C1_witness :
    isCancelled none 0 = false
    ∧ processFile demoBackend demoGen "v1" wfile 0 1 =
        { events := [.progress 0 1, .fileProcessed "a.txt" false "文件内容为空"],
          success := false } :=
  ⟨rfl, (claim_C1_failure_isolation demoBackend demoGen "v1" none 1 0 wfile []
    rfl).2.2.2.2 "  " rfl rfl⟩

/-- C3 counterexample: in the two-file run cancelled at the second file
boundary, the thread still emits the final progress signal (2, 2) at line
148 — it is outside the loop and not guarded by the cancellation flag —
even though the run terminates cancelled, contradicting the claim that
(total, total) is emitted only on natural completion and never on
cancellation. -/
theorem claim_C3_counterexample :
    Event.progress 2 2 ∈
      BatchProcessThread.run demoBackend demoGen "v1" [cfile1, cfile2] (some 1)
    ∧ (BatchProcessThread.run demoBackend demoGen "v1" [cfile1, cfile2]
        (some 1)).getLast? = some (.finished false "处理已取消") := by
  constructor
  · decide
  · decide

/-- C3 amended: progress (i, total) opens every loop-body block, before any
work on file i; an uncancelled run emits exactly total + 1 progress
signals, (0, total) through (total, total), in increasing order; and every
run — cancelled or not — ends with the final (total, total) progress
signal immediately followed by the terminal finished signal. -/
theorem claim_C3_amended_progress (b : Backend) (g : AudioGenerator)
    (voice_id : String) (files : List FileEnv) (c : Option Nat)
    (hnc : isCancelled c files.length = false) :
    progressEvents (BatchProcessThread.run b g voice_id files c) =
      (List.range (files.length + 1)).map (fun j => (j, files.length))
    ∧ (∀ fe i total, (processFile b g voice_id fe i total).events.head? =
        some (.progress i total))
    ∧ (∀ c' : Option Nat, ∃ pre ok msg,
        BatchProcessThread.run b g voice_id files c' =
          pre ++ [.progress files.length files.length, .finished ok msg]) := by
  refine ⟨?_, fun fe i total => processFile_head b g voice_id fe i total, ?_⟩
  · have h := runFiles_progress b g voice_id c files.length files 0
      (fun j hj => isCancelled_le_false c j files.length (by omega) hnc)
    obtain ⟨s0, m0, hfe⟩ := finEvent_shape c files.length
      (runFiles b g voice_id c files.length files 0).2.1
      (runFiles b g voice_id c files.length files 0).2.2
    show progressEvents (.log (startMsg files.length) ::
      ((runFiles b g voice_id c files.length files 0).1 ++
        [.progress files.length files.length,
         finEvent c files.length
           (runFiles b g voice_id c files.length files 0).2.1
           (runFiles b g voice_id c files.length files 0).2.2])) = _
    rw [hfe]
    show progressEvents ([.log (startMsg files.length)] ++
      ((runFiles b g voice_id c files.length files 0).1 ++
        [.progress files.length files.length, .finished s0 m0])) = _
    rw [progressEvents_append, progressEvents_append, h, List.range_succ]
    simp [progressEvents]
  · intro c'
    obtain ⟨s0, m0, hfe⟩ := finEvent_shape c' files.length
      (runFiles b g voice_id c' files.length files 0).2.1
      (runFiles b g voice_id c' files.length files 0).2.2
    refine ⟨.log (startMsg files.length) ::
      (runFiles b g voice_id c' files.length files 0).1, s0, m0, ?_⟩
    show Event.log (startMsg files.length) ::
      ((runFiles b g voice_id c' files.length files 0).1 ++
        [.progress files.length files.length,
         finEvent c' files.length
           (runFiles b g voice_id c' files.length files 0).2.1
           (runFiles b g voice_id c' files.length files 0).2.2]) = _
    rw [hfe]
    rfl

/-- Witness for C3 at an uncancelled one-file run. -/
theorem claim_C3_witness :
    isCancelled none 1 = false
    ∧ progressEvents
        (BatchProcessThread.run demoBackend demoGen "v1" [cfile1] none) =
      (List.range 2).map (fun j => (j, 1)) :=
  ⟨rfl, (claim_C3_amended_progress demoBackend demoGen "v1" [cfile1] none rfl).1⟩

/-- C4: when cancellation is first observed at the boundary after file k
(0-indexed, with at least one file remaining), the run consists of the
start log, the complete blocks of files 0 through k — so the file in
flight at the request runs to completion and exactly k + 1 per-file
results are emitted — the cancel log, the final progress signal and the
terminal Cancelled signal; the same formula holds for every non-empty
remainder, so the remaining files are never read or synthesized: the run
depends on them only through the total count. -/
theorem claim_C4_cancellation_boundary (b : Backend) (g : AudioGenerator)
    (voice_id : String) (pre post : List FileEnv) (k : Nat)
    (hlen : pre.length = k + 1) (hpost : post ≠ []) :
    BatchProcessThread.run b g voice_id (pre ++ post) (some (k + 1)) =
      .log (startMsg (pre ++ post).length) ::
        (blocksEvents b g voice_id pre 0 (pre ++ post).length ++
          [.log "用户取消了批量处理",
           .progress (pre ++ post).length (pre ++ post).length,
           .finished false "处理已取消"])
    ∧ countFileResults
        (BatchProcessThread.run b g voice_id (pre ++ post) (some (k + 1))) = k + 1
    ∧ (BatchProcessThread.run b g voice_id (pre ++ post) (some (k + 1))).getLast? =
        some (.finished false "处理已取消")
    ∧ ∀ post' : List FileEnv, post' ≠ [] →
        BatchProcessThread.run b g voice_id (pre ++ post') (some (k + 1)) =
          .log (startMsg (pre ++ post').length) ::
            (blocksEvents b g voice_id pre 0 (pre ++ post').length ++
              [.log "用户取消了批量处理",
               .progress (pre ++ post').length (pre ++ post').length,
               .finished false "处理已取消"]) := by
  have key : ∀ post' : List FileEnv, post' ≠ [] →
      BatchProcessThread.run b g voice_id (pre ++ post') (some (k + 1)) =
        .log (startMsg (pre ++ post').length) ::
          (blocksEvents b g voice_id pre 0 (pre ++ post').length ++
            [.log "用户取消了批量处理",
             .progress (pre ++ post').length (pre ++ post').length,
             .finished false "处理已取消"]) := by
    intro post' hp'
    have hcan : isCancelled (some (k + 1)) (pre ++ post').length = true := by
      simp only [isCancelled, decide_eq_true_eq, List.length_append]
      rcases post' with _ | ⟨x, xs⟩
      · exact absurd rfl hp'
      · simp only [List.length_cons]
        omega
    show Event.log (startMsg (pre ++ post').length) ::
      ((runFiles b g voice_id (some (k + 1)) (pre ++ post').length
          (pre ++ post') 0).1 ++
        [.progress (pre ++ post').length (pre ++ post').length,
         finEvent (some (k + 1)) (pre ++ post').length
           (runFiles b g voice_id (some (k + 1)) (pre ++ post').length
             (pre ++ post') 0).2.1
           (runFiles b g voice_id (some (k + 1)) (pre ++ post').length
             (pre ++ post') 0).2.2]) = _
    rw [finEvent_cancelled _ _ _ _ hcan,
      runFiles_cancel_at b g voice_id (pre ++ post').length (k + 1) pre post' 0
        (by omega) hp']
    simp [List.append_assoc]
  refine ⟨key post hpost, ?_, ?_, key⟩
  · rw [key post hpost]
    show countFileResults ([.log (startMsg (pre ++ post).length)] ++
      (blocksEvents b g voice_id pre 0 (pre ++ post).length ++
        [.log "用户取消了批量处理",
         .progress (pre ++ post).length (pre ++ post).length,
         .finished false "处理已取消"])) = k + 1
    rw [countFileResults_append, countFileResults_append,
      countFileResults_blocks b g voice_id pre 0 (pre ++ post).length, hlen]
    simp [countFileResults]
  · have hsplit : BatchProcessThread.run b g voice_id (pre ++ post) (some (k + 1)) =
        (Event.log (startMsg (pre ++ post).length) ::
          (blocksEvents b g voice_id pre 0 (pre ++ post).length ++
            [.log "用户取消了批量处理",
             .progress (pre ++ post).length (pre ++ post).length])) ++
          [.finished false "处理已取消"] := by
      rw [key post hpost]
      simp [List.append_assoc]
    rw [hsplit, List.getLast?_concat]

/-- Witness for C4: a two-file run cancelled after the first file. -/
theorem claim_C4_witness :
    ([cfile1] : List FileEnv).length = 0 + 1
    ∧ ([cfile2] : List FileEnv) ≠ []
    ∧ (BatchProcessThread.run demoBackend demoGen "v1" ([cfile1] ++ [cfile2])
        (some 1)).getLast? = some (.finished false "处理已取消") :=
  ⟨rfl, List.cons_ne_nil _ _,
   (claim_C4_cancellation_boundary demoBackend demoGen "v1" [cfile1] [cfile2] 0
     rfl (List.cons_ne_nil _ _)).2.2.1⟩

end FishAudioUtil
